import Mathlib

/-!
Shallow embedding of the holo-router gateway (`src/gateway/src/main.rs`).

The program is a TLS-passthrough proxy: it peeks the inbound TCP stream,
parses a TLS record header and the ClientHello's SNI hostname, applies a
suffix-based admission rule, resolves the hostname at port 443 and splices
the two connections.

Modelling choices:
- a connection's receive queue is a `List Nat` of bytes; `peek` models
  `TcpStream::peek` into a buffer of the requested size (it yields
  `min size queue.length` bytes), and `readBytes` models a consuming read;
- the external collaborators (the rustls handshake decoder reached through
  `HandshakeMessagePayload::read_version` / `get_sni_extension`, the
  `to_socket_addrs` resolver, `TcpStream::connect` and the relay outcome)
  are fields of an `Env` record of functions, since their code is outside
  this repository;
- Rust panics (`unwrap()` on `None`, indexing `sni[0]` into an empty
  vector) are the `Outcome.panic` value, distinct from returned errors;
- every externally visible step records an `Event`, so that statements
  like "the second peek is not performed" or "no outbound connection is
  attempted" are about the event trace.
-/

deriving instance DecidableEq for Except

namespace HoloRouter

/-- Constant `TLS_RECORD_HEADER_LENGTH` from the source (line 17). -/
def TLS_RECORD_HEADER_LENGTH : Nat := 5

/-- Constant `TLS_HANDSHAKE_MAX_LENGTH` from the source (line 18). -/
def TLS_HANDSHAKE_MAX_LENGTH : Nat := 2048

/-- Byte value of `ContentType::Handshake` (rustls maps the wire byte 22 to
`ContentType::Handshake`, and `content_type != ContentType::Handshake` holds
exactly when the first header byte differs from 22). -/
def ContentType_Handshake : Nat := 22

/-- Result of one fallible Rust computation.  `err` is a returned
`Err(Box<dyn Error>)` carrying its message; `panic` models a Rust panic
(`unwrap()` on `None`, out-of-bounds indexing), which is not a returned
value and is not caught by the caller's `?`/`if let Err` handling. -/
inductive Outcome (α : Type) where
  | ok : α → Outcome α
  | err : String → Outcome α
  | panic : Outcome α
deriving DecidableEq

/-- Socket addresses are kept abstract; only their identity matters. -/
abbrev SockAddr := String

/-- Externally visible steps of `process`, in order of occurrence:
peeks of the inbound stream, a call into the rustls handshake decoder,
a call to `to_socket_addrs`, and an outbound `TcpStream::connect`. -/
inductive Event where
  | peekEv : Nat → Event
  | decodeEv : List Nat → Nat → Event
  | resolveEv : String → Event
  | connectEv : SockAddr → Event
deriving DecidableEq

/-- rustls `ServerNamePayload`: either a parsed host name or an unknown
name type (`ServerNamePayload::Unknown`). -/
inductive ServerNamePayload where
  | hostName : String → ServerNamePayload
  | unknown : ServerNamePayload
deriving DecidableEq

/-- rustls `ServerName` entry of the SNI extension; `process` only looks at
its `payload` field. -/
structure ServerName where
  payload : ServerNamePayload
deriving DecidableEq

/-- The part of a rustls `ClientHelloPayload` that `process` consumes:
the result of `get_sni_extension()` (`none` when the extension is absent,
otherwise the ordered list of server-name entries). -/
structure ClientHelloPayload where
  sniExtension : Option (List ServerName)
deriving DecidableEq

/-- rustls `HandshakePayload`: the `ClientHello` variant, or any of the
other variants, which `process` treats uniformly in its `_` match arm. -/
inductive HandshakePayload where
  | clientHello : ClientHelloPayload → HandshakePayload
  | other : HandshakePayload
deriving DecidableEq

/-- rustls `HandshakeMessagePayload`; `process` only reads `payload`. -/
structure HandshakeMessagePayload where
  payload : HandshakePayload
deriving DecidableEq

/-- External collaborators of the gateway, all outside this repository:
`decode body protocolVersion` is `HandshakeMessagePayload::read_version`
applied to the record body, `resolve s` is `s.to_socket_addrs()` (`none`
for `Err`, `some addrs` for `Ok` with the iterator's contents),
`connectResult a` is the outcome of `TcpStream::connect(a)`, and
`spliceResult` is the outcome of the final relay phase. -/
structure Env where
  decode : List Nat → Nat → Option HandshakeMessagePayload
  resolve : String → Option (List SockAddr)
  connectResult : SockAddr → Except String Unit
  spliceResult : Except String Unit

/-- Model of `str::ends_with`: byte-wise (here character-wise, equivalent
for the ASCII suffix used) case-sensitive suffix test. -/
def ends_with (s pat : String) : Bool :=
  pat.data.isSuffixOf s.data

/-- Model of `as_str` from the source: `format!("{}", s)` on a string is
the string itself. -/
def as_str (s : String) : String := s

/-- Model of the `peek` helper (source lines 20-29): `TcpStream::peek`
fills at most `size` bytes from the front of the receive queue without
consuming them, so it yields `n = min size queue.length` bytes; the helper
succeeds only when `n = size` and otherwise returns the
"Peek size mismatch" error. -/
def peek (queue : List Nat) (size : Nat) : Except String (List Nat) :=
  let buf := queue.take size
  let n := buf.length
  if n = size then
    .ok buf
  else
    .error ("Peek size mismatch: " ++ toString n ++ " != " ++ toString size)

/-- A consuming read of `n` bytes from a receive queue: the bytes read and
the remaining queue. -/
def readBytes (queue : List Nat) (n : Nat) : List Nat × List Nat :=
  (queue.take n, queue.drop n)

/-- The three header reads of `process` (source lines 52-54): content type
(one byte), protocol version (two bytes big-endian) and record body length
(two bytes big-endian), via a rustls `Reader` over the peeked buffer.
`none` models the reads' `unwrap()` panicking on a buffer shorter than
five bytes (unreachable after a successful five-byte peek). -/
def parseHeader (buf : List Nat) : Option (Nat × Nat × Nat) :=
  match buf with
  | b0 :: b1 :: b2 :: b3 :: b4 :: _ => some (b0, b1 * 256 + b2, b3 * 256 + b4)
  | _ => none

/-- Source lines 49-95 of `process`: peek the five-byte record header,
check the content type and the declared body length, peek the full record,
decode the handshake through the rustls decoder, and extract the SNI
hostname from the first server-name entry.  Returns the hostname (after
`as_str`) or the error/panic at which processing stopped, together with
the trace of external steps. -/
def extractHost (env : Env) (queue : List Nat) : Outcome String × List Event :=
  let ev1 := [Event.peekEv TLS_RECORD_HEADER_LENGTH]
  match peek queue TLS_RECORD_HEADER_LENGTH with
  | .error e => (.err e, ev1)
  | .ok buf =>
    match parseHeader buf with
    | none => (.panic, ev1)
    | some (content_type, protocol_version, handshake_size) =>
      if content_type ≠ ContentType_Handshake then
        (.err "TLS message is not a handshake", ev1)
      else if handshake_size > TLS_HANDSHAKE_MAX_LENGTH then
        (.err ("TLS handshake size is " ++ toString handshake_size ++
               ", expected " ++ toString TLS_HANDSHAKE_MAX_LENGTH ++ " max"), ev1)
      else
        let total := TLS_RECORD_HEADER_LENGTH + handshake_size
        let ev2 := ev1 ++ [Event.peekEv total]
        match peek queue total with
        | .error e => (.err e, ev2)
        | .ok buf2 =>
          let body := buf2.drop TLS_RECORD_HEADER_LENGTH
          let ev3 := ev2 ++ [Event.decodeEv body protocol_version]
          match env.decode body protocol_version with
          | none => (.panic, ev3)
          | some handshake =>
            match handshake.payload with
            | .other => (.err "TLS handshake is not Client Hello", ev3)
            | .clientHello client_hello =>
              match client_hello.sniExtension with
              | none => (.err "Missing SNI", ev3)
              | some sni =>
                match sni with
                | [] => (.panic, ev3)
                | first :: _ =>
                  match first.payload with
                  | .unknown => (.err "Unknown SNI payload type", ev3)
                  | .hostName host => (.ok (as_str host), ev3)

/-- Source lines 97-109 of `process`: the admission rule
`host_str.ends_with("holohost.net")`, resolution of `"{host}:443"` through
`to_socket_addrs` (taking the first address with `next().unwrap()`), the
outbound connect, and the relay. -/
def routeHost (env : Env) (host_str : String) : Outcome Unit × List Event :=
  if ! (ends_with host_str "holohost.net") then
    (.err ("Rejected " ++ host_str), [])
  else
    let query := host_str ++ ":443"
    let ev1 := [Event.resolveEv query]
    match env.resolve query with
    | none => (.err ("Failed to resolve " ++ host_str), ev1)
    | some [] => (.panic, ev1)
    | some (addr :: _) =>
      let ev2 := ev1 ++ [Event.connectEv addr]
      match env.connectResult addr with
      | .error e => (.err e, ev2)
      | .ok _ =>
        match env.spliceResult with
        | .error e => (.err e, ev2)
        | .ok _ => (.ok (), ev2)

/-- `process` (source lines 48-110): extraction of the SNI hostname
followed by the routing/relay phase. -/
def process (env : Env) (queue : List Nat) : Outcome Unit × List Event :=
  match extractHost env queue with
  | (.ok host, evs) =>
    let r := routeHost env host
    (r.1, evs ++ r.2)
  | (.err e, evs) => (.err e, evs)
  | (.panic, evs) => (.panic, evs)

/-- The per-connection closure spawned by `main` (source lines 118-122):
an error returned by `process` is logged as one line
`"{now} {peer_ip}: {cause}"`; a successful relay logs nothing; a panic
unwinds the spawned task before the `if let Err` arm, so nothing is
logged either. -/
def handleConnection (env : Env) (queue : List Nat) (now ip : String) :
    Option String :=
  match (process env queue).1 with
  | .err e => some (now ++ " " ++ ip ++ ": " ++ e)
  | .ok _ => none
  | .panic => none

/-- One direction's source for the relay: the bytes it yields before
reaching either a clean end of stream (`fail = none`) or an error
(`fail = some e`). -/
structure Stream where
  bytes : List Nat
  fail : Option String
deriving DecidableEq

/-- Model of `copy` of one direction (`ri.copy(&mut wo)`): moves the
source's bytes unmodified to the destination, then returns the byte count
on clean end of stream or the source's error.  The second component is
what the destination received. -/
def copy (src : Stream) : Except String Nat × List Nat :=
  match src.fail with
  | none => (.ok src.bytes.length, src.bytes)
  | some e => (.error e, src.bytes)

/-- Model of `future::try_join`: succeeds only when both sides succeed,
and completes with an error (cancelling the other side) as soon as either
side fails. -/
def tryJoin {α β : Type} (a : Except String α) (b : Except String β) :
    Except String (α × β) :=
  match a, b with
  | .ok x, .ok y => .ok (x, y)
  | .error e, _ => .error e
  | .ok _, .error e => .error e

/-- `splice` (source lines 31-42): both directions copy concurrently and
are joined with `try_join`.  Returns the overall outcome together with the
bytes delivered client-to-server and server-to-client. -/
def splice (inbound outbound : Stream) :
    Except String Unit × List Nat × List Nat :=
  let client_to_server := copy inbound
  let server_to_client := copy outbound
  (match tryJoin client_to_server.1 server_to_client.1 with
   | .ok _ => .ok ()
   | .error e => .error e,
   client_to_server.2, server_to_client.2)

/-- Sample environment: the decoder rejects every body, resolution yields
one address, connect and relay succeed.  Used to evaluate concrete runs. -/
def envAll : Env where
  decode := fun _ _ => none
  resolve := fun _ => some ["93.184.216.34:443"]
  connectResult := fun _ => .ok ()
  spliceResult := .ok ()

/-- Sample environment whose resolver fails (`to_socket_addrs` returns
`Err`). -/
def envNoneRes : Env where
  decode := fun _ _ => none
  resolve := fun _ => none
  connectResult := fun _ => .error "connect"
  spliceResult := .ok ()

/-- Sample environment whose resolver succeeds with an empty address
iterator (`to_socket_addrs` returns `Ok` of an empty iterator). -/
def envEmptyRes : Env where
  decode := fun _ _ => none
  resolve := fun _ => some []
  connectResult := fun _ => .error "connect"
  spliceResult := .ok ()

/-- Sample environment whose decoder yields a non-ClientHello handshake
message. -/
def envOther : Env where
  decode := fun _ _ => some ⟨.other⟩
  resolve := fun _ => none
  connectResult := fun _ => .error "connect"
  spliceResult := .ok ()

/-- Sample environment whose decoder yields a ClientHello carrying one
hostname-typed SNI entry. -/
def envHello : Env where
  decode := fun _ _ => some ⟨.clientHello ⟨some [⟨.hostName "app.holohost.net"⟩]⟩⟩
  resolve := fun _ => some ["10.0.0.1:443"]
  connectResult := fun _ => .ok ()
  spliceResult := .ok ()

end HoloRouter


namespace HoloRouter

/-! Helper lemmas about the embedding. -/

lemma peek_ok (q : List Nat) (n : Nat) (h : n ≤ q.length) :
    peek q n = .ok (q.take n) := by
  simp [peek, List.length_take, Nat.min_eq_left h]

lemma peek_short (q : List Nat) (n : Nat) (h : q.length < n) :
    peek q n =
      .error ("Peek size mismatch: " ++ toString q.length ++ " != " ++ toString n) := by
  have hmin : min n q.length = q.length := Nat.min_eq_right (Nat.le_of_lt h)
  have hne : q.length ≠ n := Nat.ne_of_lt h
  simp [peek, List.length_take, hmin, hne]

lemma take_five {α : Type} (a b c d e : α) (l : List α) :
    List.take 5 (a :: b :: c :: d :: e :: l) = [a, b, c, d, e] := rfl

lemma take_five_add {α : Type} (n : Nat) (a b c d e : α) (l : List α) :
    List.take (5 + n) (a :: b :: c :: d :: e :: l) =
      a :: b :: c :: d :: e :: List.take n l := by
  rw [Nat.add_comm]
  simp [List.take_succ_cons]

lemma drop_five {α : Type} (a b c d e : α) (l : List α) :
    List.drop 5 (a :: b :: c :: d :: e :: l) = l := rfl

end HoloRouter

namespace HoloRouter

/-- Reduction of `extractHost` on a queue whose first five bytes form a
Handshake header with an in-bounds declared body length that is fully
buffered: the extraction outcome is determined by the decoder's result on
the record body, and the trace is the two peeks plus the decode call. -/
lemma extractHost_header (env : Env) (b1 b2 b3 b4 : Nat) (rest : List Nat)
    (hsz : b3 * 256 + b4 ≤ TLS_HANDSHAKE_MAX_LENGTH)
    (hlen : b3 * 256 + b4 ≤ rest.length) :
    extractHost env (22 :: b1 :: b2 :: b3 :: b4 :: rest) =
      ((match env.decode (rest.take (b3 * 256 + b4)) (b1 * 256 + b2) with
        | none => Outcome.panic
        | some handshake =>
          match handshake.payload with
          | .other => Outcome.err "TLS handshake is not Client Hello"
          | .clientHello client_hello =>
            match client_hello.sniExtension with
            | none => Outcome.err "Missing SNI"
            | some [] => Outcome.panic
            | some (first :: _) =>
              match first.payload with
              | .unknown => Outcome.err "Unknown SNI payload type"
              | .hostName host => Outcome.ok (as_str host)),
       [Event.peekEv 5, Event.peekEv (5 + (b3 * 256 + b4)),
        Event.decodeEv (rest.take (b3 * 256 + b4)) (b1 * 256 + b2)]) := by
  have h5 : peek (22 :: b1 :: b2 :: b3 :: b4 :: rest) 5 = .ok [22, b1, b2, b3, b4] := by
    rw [peek_ok _ _ (by simp), take_five]
  have hbig : peek (22 :: b1 :: b2 :: b3 :: b4 :: rest) (5 + (b3 * 256 + b4)) =
      .ok (22 :: b1 :: b2 :: b3 :: b4 :: rest.take (b3 * 256 + b4)) := by
    rw [peek_ok _ _ (by simp; omega), take_five_add]
  unfold extractHost
  rw [show TLS_RECORD_HEADER_LENGTH = 5 from rfl, h5]
  simp only [parseHeader]
  rw [if_neg (by simp [ContentType_Handshake]), if_neg (by omega)]
  rw [hbig]
  simp only [drop_five]
  rcases hd : env.decode (rest.take (b3 * 256 + b4)) (b1 * 256 + b2) with _ | handshake
  · rfl
  · rcases handshake with ⟨hp⟩
    rcases hp with ch | _
    · rcases ch with ⟨sni⟩
      rcases sni with _ | l
      · rfl
      · rcases l with _ | ⟨⟨fp⟩, tl⟩
        · rfl
        · rcases fp with h | _ <;> rfl
    · rfl

end HoloRouter

namespace HoloRouter

/-- The extraction phase never emits an outbound-connect event. -/
lemma extractHost_no_connect (env : Env) (q : List Nat) (a : SockAddr) :
    Event.connectEv a ∉ (extractHost env q).2 := by
  intro hmem
  unfold extractHost at hmem
  repeat' (split at hmem)
  all_goals try simp at hmem
  all_goals
    (rename_i ct pv hs heq h1 h2
     rcases hp : peek q (TLS_RECORD_HEADER_LENGTH + hs) with e | buf2 <;> rw [hp] at hmem
     · simp at hmem
     · repeat' (split at hmem)
       all_goals simp at hmem)

/-- The extraction phase never emits a resolution event. -/
lemma extractHost_no_resolve (env : Env) (q : List Nat) (s : String) :
    Event.resolveEv s ∉ (extractHost env q).2 := by
  intro hmem
  unfold extractHost at hmem
  repeat' (split at hmem)
  all_goals try simp at hmem
  all_goals
    (rename_i ct pv hs heq h1 h2
     rcases hp : peek q (TLS_RECORD_HEADER_LENGTH + hs) with e | buf2 <;> rw [hp] at hmem
     · simp at hmem
     · repeat' (split at hmem)
       all_goals simp at hmem)

/-- A hostname that does not end with "holohost.net" is rejected with the
"Rejected" error and an empty routing trace. -/
lemma routeHost_rejected (env : Env) (host : String)
    (h : ends_with host "holohost.net" = false) :
    routeHost env host = (.err ("Rejected " ++ host), []) := by
  simp [routeHost, h]

/-- A hostname that ends with "holohost.net" reaches the resolution step
on the string "{host}:443". -/
lemma routeHost_resolve_mem (env : Env) (host : String)
    (h : ends_with host "holohost.net" = true) :
    Event.resolveEv (host ++ ":443") ∈ (routeHost env host).2 := by
  unfold routeHost
  rw [h]
  rcases hr : env.resolve (host ++ ":443") with _ | ls
  · simp [hr]
  · rcases ls with _ | ⟨addr, tl⟩
    · simp [hr]
    · rcases hc : env.connectResult addr with e | u
      · simp [hr, hc]
      · rcases hs2 : env.spliceResult with e | u2
        · simp [hr, hc, hs2]
        · simp [hr, hc, hs2]

/-- Only a hostname matching the suffix can produce a connect event. -/
lemma routeHost_connect_matched (env : Env) (host : String) (a : SockAddr)
    (hmem : Event.connectEv a ∈ (routeHost env host).2) :
    ends_with host "holohost.net" = true := by
  by_contra hne
  rw [Bool.not_eq_true] at hne
  rw [routeHost_rejected env host hne] at hmem
  simp at hmem

end HoloRouter

namespace HoloRouter

/-- C2: for every connection receive queue and requested byte count N,
`peek` returns exactly the N bytes at the front of the queue without
removing them — any subsequent consuming read of at least N bytes yields
those same N bytes as a prefix — and whenever fewer than N bytes are
buffered it fails with the short-peek ("Peek size mismatch") error and
returns no bytes. -/
theorem C2_peek_nondestructive (q : List Nat) (n : Nat) :
    (n ≤ q.length →
        peek q n = .ok (q.take n) ∧
        (q.take n).length = n ∧
        (∀ m, n ≤ m → ((readBytes q m).1).take n = q.take n))
  ∧ (q.length < n →
        peek q n = .error
          ("Peek size mismatch: " ++ toString q.length ++ " != " ++ toString n) ∧
        ∀ bs, peek q n ≠ .ok bs) := by
  constructor
  · intro h
    refine ⟨peek_ok q n h, ?_, ?_⟩
    · simp [List.length_take, Nat.min_eq_left h]
    · intro m hm
      simp [readBytes, List.take_take, Nat.min_eq_left hm]
  · intro h
    refine ⟨peek_short q n h, ?_⟩
    intro bs hb
    rw [peek_short q n h] at hb
    exact Except.noConfusion hb

/-- Witness for C2 at concrete inputs: a peek of 2 from a 3-byte queue and
a short peek of 5 from a 1-byte queue. -/
theorem C2_witness :
    peek [1, 2, 3] 2 = .ok [1, 2] ∧
    peek [1] 5 = .error "Peek size mismatch: 1 != 5" :=
  ⟨((C2_peek_nondestructive [1, 2, 3] 2).1 (by decide)).1,
   ((C2_peek_nondestructive [1] 5).2 (by decide)).1⟩

/-- C1: the routing decision admits a hostname if and only if it ends with
"holohost.net" (admission = the resolution step on "{host}:443" is
reached); every non-matching hostname produces the "Rejected {host}"
error — whose text contains the offending hostname — with an empty routing
trace, so no outbound connection is attempted; and any connect event of
the whole pipeline stems from an extracted hostname matching the suffix. -/
theorem C1_admission (env : Env) (host : String) :
    ((Event.resolveEv (host ++ ":443") ∈ (routeHost env host).2) ↔
        ends_with host "holohost.net" = true)
  ∧ (ends_with host "holohost.net" = false →
        routeHost env host = (.err ("Rejected " ++ host), []) ∧
        (∃ pre, "Rejected " ++ host = pre ++ host))
  ∧ (∀ q a, Event.connectEv a ∈ (process env q).2 →
        ∃ h, (extractHost env q).1 = .ok h ∧ ends_with h "holohost.net" = true) := by
  refine ⟨⟨?_, ?_⟩, ?_, ?_⟩
  · intro hmem
    by_contra hne
    rw [Bool.not_eq_true] at hne
    rw [routeHost_rejected env host hne] at hmem
    simp at hmem
  · intro h
    exact routeHost_resolve_mem env host h
  · intro h
    exact ⟨routeHost_rejected env host h, ⟨"Rejected ", rfl⟩⟩
  · intro q a hmem
    rcases hex : extractHost env q with ⟨r, evs⟩
    rcases r with host' | e | _
    · simp only [process, hex] at hmem
      rcases List.mem_append.mp hmem with hIn | hIn
      · have hno := extractHost_no_connect env q a
        rw [hex] at hno
        exact absurd hIn hno
      · exact ⟨host', by simp [hex], routeHost_connect_matched env host' a hIn⟩
    · simp only [process, hex] at hmem
      have hno := extractHost_no_connect env q a
      rw [hex] at hno
      exact absurd hmem hno
    · simp only [process, hex] at hmem
      have hno := extractHost_no_connect env q a
      rw [hex] at hno
      exact absurd hmem hno

/-- Witness for C1 at a concrete input: "evil.example.com" does not end
with the allowed suffix, so routing rejects it with the hostname in the
reason and an empty trace. -/
theorem C1_witness :
    routeHost envAll "evil.example.com" =
      (.err ("Rejected " ++ "evil.example.com"), []) :=
  (((C1_admission envAll "evil.example.com").2.1) (by decide)).1

/-- C5: the admission predicate is a plain byte-wise, case-sensitive
ends-with comparison with no label-boundary check: "evilholohost.net",
which is not a subdomain of holohost.net, is admitted and an outbound
connection to its resolved address is attempted, while "app.HOLOHOST.NET",
which differs only in letter case, is rejected. -/
theorem C5_suffix_no_boundary :
    routeHost envAll "evilholohost.net" =
      (.ok (), [Event.resolveEv "evilholohost.net:443",
                Event.connectEv "93.184.216.34:443"]) ∧
    routeHost envAll "app.HOLOHOST.NET" =
      (.err "Rejected app.HOLOHOST.NET", []) := by
  decide

end HoloRouter

namespace HoloRouter

/-- C6: any 5-byte record header whose content-type byte is not Handshake
(22) makes processing fail with the "TLS message is not a handshake" error
after only the first peek: the trace shows the second peek is never
performed and the handshake body is never decoded. -/
theorem C6_not_handshake (env : Env) (b0 b1 b2 b3 b4 : Nat) (rest : List Nat)
    (h : b0 ≠ 22) :
    process env (b0 :: b1 :: b2 :: b3 :: b4 :: rest) =
      (.err "TLS message is not a handshake", [Event.peekEv 5]) := by
  have h5 : peek (b0 :: b1 :: b2 :: b3 :: b4 :: rest) 5 = .ok [b0, b1, b2, b3, b4] := by
    rw [peek_ok _ _ (by simp), take_five]
  have hex : extractHost env (b0 :: b1 :: b2 :: b3 :: b4 :: rest) =
      (.err "TLS message is not a handshake", [Event.peekEv 5]) := by
    unfold extractHost
    rw [show TLS_RECORD_HEADER_LENGTH = 5 from rfl, h5]
    simp only [parseHeader]
    rw [if_pos (by simpa [ContentType_Handshake] using h)]
  simp [process, hex]

/-- Witness for C6 at a concrete input: content type 21 (Alert). -/
theorem C6_witness :
    process envAll [21, 3, 1, 0, 0] =
      (.err "TLS message is not a handshake", [Event.peekEv 5]) :=
  C6_not_handshake envAll 21 3 1 0 0 [] (by decide)

/-- Counterexample to C3 as stated: the header [21, 3, 1, 12, 0] declares
a body length of 3072 > 2048, yet processing fails with the
NotHandshake error, not the HandshakeTooLarge one, because the
content-type check runs first. -/
theorem C3_counterexample :
    process envAll [21, 3, 1, 12, 0] =
      (.err "TLS message is not a handshake", [Event.peekEv 5]) ∧
    (process envAll [21, 3, 1, 12, 0]).1 ≠
      .err "TLS handshake size is 3072, expected 2048 max" := by
  decide

/-- C3 (amended to headers whose content type is Handshake): for every
such 5-byte header whose declared big-endian body length exceeds 2048,
processing fails with the "TLS handshake size is … max" error after only
the first peek — the second (larger) peek never happens and no outbound
connection is attempted — regardless of how many bytes actually follow
the header. -/
theorem C3_too_large (env : Env) (b1 b2 b3 b4 : Nat) (rest : List Nat)
    (h : b3 * 256 + b4 > TLS_HANDSHAKE_MAX_LENGTH) :
    process env (22 :: b1 :: b2 :: b3 :: b4 :: rest) =
      (.err ("TLS handshake size is " ++ toString (b3 * 256 + b4) ++
             ", expected " ++ toString TLS_HANDSHAKE_MAX_LENGTH ++ " max"),
       [Event.peekEv 5]) := by
  have h5 : peek (22 :: b1 :: b2 :: b3 :: b4 :: rest) 5 = .ok [22, b1, b2, b3, b4] := by
    rw [peek_ok _ _ (by simp), take_five]
  have hex : extractHost env (22 :: b1 :: b2 :: b3 :: b4 :: rest) =
      (.err ("TLS handshake size is " ++ toString (b3 * 256 + b4) ++
             ", expected " ++ toString TLS_HANDSHAKE_MAX_LENGTH ++ " max"),
       [Event.peekEv 5]) := by
    unfold extractHost
    rw [show TLS_RECORD_HEADER_LENGTH = 5 from rfl, h5]
    simp only [parseHeader]
    rw [if_neg (by simp [ContentType_Handshake]), if_pos h]
  simp [process, hex]

/-- Witness for the amended C3: a Handshake header declaring 3072 body
bytes while none are present. -/
theorem C3_witness :
    process envAll [22, 3, 1, 12, 0] =
      (.err ("TLS handshake size is " ++ toString (12 * 256 + 0) ++
             ", expected " ++ toString TLS_HANDSHAKE_MAX_LENGTH ++ " max"),
       [Event.peekEv 5]) :=
  C3_too_large envAll 3 1 12 0 [] (by decide)

end HoloRouter

namespace HoloRouter

/-- C7: whenever the decoder turns the record body into a handshake
message that is not a ClientHello, processing fails with the
"TLS handshake is not Client Hello" error; the trace contains no
resolution and no connect event, so no SNI extraction, routing decision or
outbound connection happens. -/
theorem C7_not_client_hello (env : Env) (b1 b2 b3 b4 : Nat) (rest : List Nat)
    (hsz : b3 * 256 + b4 ≤ TLS_HANDSHAKE_MAX_LENGTH)
    (hlen : b3 * 256 + b4 ≤ rest.length)
    (hdec : env.decode (rest.take (b3 * 256 + b4)) (b1 * 256 + b2) =
              some ⟨.other⟩) :
    process env (22 :: b1 :: b2 :: b3 :: b4 :: rest) =
      (.err "TLS handshake is not Client Hello",
       [Event.peekEv 5, Event.peekEv (5 + (b3 * 256 + b4)),
        Event.decodeEv (rest.take (b3 * 256 + b4)) (b1 * 256 + b2)]) := by
  have hex := extractHost_header env b1 b2 b3 b4 rest hsz hlen
  rw [hdec] at hex
  simp [process, hex]

/-- Witness for C7: a ServerHello-like (non-ClientHello) decode result on
a one-byte record body. -/
theorem C7_witness :
    process envOther [22, 3, 1, 0, 1, 0] =
      (.err "TLS handshake is not Client Hello",
       [Event.peekEv 5, Event.peekEv (5 + (0 * 256 + 1)),
        Event.decodeEv (List.take (0 * 256 + 1) [0]) (3 * 256 + 1)]) :=
  C7_not_client_hello envOther 3 1 0 1 [0] (by decide) (by decide) rfl

/-- C8: for a decoded ClientHello, a missing SNI extension fails with
"Missing SNI"; when the extension is present only the first server-name
entry is consulted (the tail is arbitrary): a non-hostname first entry
fails with "Unknown SNI payload type" and a hostname first entry makes the
extraction return exactly that name. -/
theorem C8_sni_extraction (env : Env) (b1 b2 b3 b4 : Nat) (rest : List Nat)
    (ch : ClientHelloPayload)
    (hsz : b3 * 256 + b4 ≤ TLS_HANDSHAKE_MAX_LENGTH)
    (hlen : b3 * 256 + b4 ≤ rest.length)
    (hdec : env.decode (rest.take (b3 * 256 + b4)) (b1 * 256 + b2) =
              some ⟨.clientHello ch⟩) :
    (ch.sniExtension = none →
        process env (22 :: b1 :: b2 :: b3 :: b4 :: rest) =
          (.err "Missing SNI",
           [Event.peekEv 5, Event.peekEv (5 + (b3 * 256 + b4)),
            Event.decodeEv (rest.take (b3 * 256 + b4)) (b1 * 256 + b2)]))
  ∧ (∀ tl, ch.sniExtension = some (⟨.unknown⟩ :: tl) →
        process env (22 :: b1 :: b2 :: b3 :: b4 :: rest) =
          (.err "Unknown SNI payload type",
           [Event.peekEv 5, Event.peekEv (5 + (b3 * 256 + b4)),
            Event.decodeEv (rest.take (b3 * 256 + b4)) (b1 * 256 + b2)]))
  ∧ (∀ host tl, ch.sniExtension = some (⟨.hostName host⟩ :: tl) →
        extractHost env (22 :: b1 :: b2 :: b3 :: b4 :: rest) =
          (.ok host,
           [Event.peekEv 5, Event.peekEv (5 + (b3 * 256 + b4)),
            Event.decodeEv (rest.take (b3 * 256 + b4)) (b1 * 256 + b2)])) := by
  have hex := extractHost_header env b1 b2 b3 b4 rest hsz hlen
  rw [hdec] at hex
  refine ⟨?_, ?_, ?_⟩
  · intro hsni
    simp [process, hex, hsni]
  · intro tl hsni
    simp [process, hex, hsni]
  · intro host tl hsni
    simp [hex, hsni, as_str]

/-- Witness for C8: a ClientHello whose SNI extension holds a single
hostname entry is extracted to that hostname. -/
theorem C8_witness :
    extractHost envHello [22, 3, 1, 0, 1, 0] =
      (.ok "app.holohost.net",
       [Event.peekEv 5, Event.peekEv (5 + (0 * 256 + 1)),
        Event.decodeEv (List.take (0 * 256 + 1) [0]) (3 * 256 + 1)]) :=
  (C8_sni_extraction envHello 3 1 0 1 [0] ⟨some [⟨.hostName "app.holohost.net"⟩]⟩
      (by decide) (by decide) rfl).2.2 "app.holohost.net" [] rfl

end HoloRouter

namespace HoloRouter

/-- Counterexample to C4 as stated: for the well-formed header
[22, 3, 1, 0, 1] followed by a one-byte body the decoder cannot parse, the
decode step does not return a recoverable error value — the `unwrap()`
makes the connection task panic — and the supervisor logs nothing for this
peer. -/
theorem C4_counterexample :
    (process envAll [22, 3, 1, 0, 1, 0]).1 = .panic ∧
    handleConnection envAll [22, 3, 1, 0, 1, 0] "2019-11-01 00:00:00" "203.0.113.7" =
      none := by
  decide

/-- C4 (amended): every error that the pipeline *returns* is caught at the
supervisor boundary and logged as one line carrying the peer address and
the textual cause; a successful relay logs nothing; but a pipeline stage
that panics (the handshake-decode `unwrap`, indexing an empty SNI list,
taking the first of zero resolved addresses) aborts only the connection's
spawned task, bypassing the supervisor's logging. -/
theorem C4_supervision (env : Env) (q : List Nat) (now ip : String) :
    (∀ e, (process env q).1 = .err e →
        handleConnection env q now ip = some (now ++ " " ++ ip ++ ": " ++ e) ∧
        (∃ pre, now ++ " " ++ ip ++ ": " ++ e = pre ++ e))
  ∧ ((process env q).1 = .ok () → handleConnection env q now ip = none)
  ∧ ((process env q).1 = .panic → handleConnection env q now ip = none) := by
  refine ⟨?_, ?_, ?_⟩
  · intro e h
    exact ⟨by simp [handleConnection, h], ⟨now ++ " " ++ ip ++ ": ", rfl⟩⟩
  · intro h
    simp [handleConnection, h]
  · intro h
    simp [handleConnection, h]

/-- Witness for the amended C4: a non-handshake first byte is logged with
the peer address and the cause. -/
theorem C4_witness :
    handleConnection envAll [21, 0, 0, 0, 0] "t0" "9.9.9.9" =
      some ("t0" ++ " " ++ "9.9.9.9" ++ ": " ++ "TLS message is not a handshake") :=
  ((C4_supervision envAll [21, 0, 0, 0, 0] "t0" "9.9.9.9").1
      "TLS message is not a handshake" (by decide)).1

/-- Counterexample to C9 as stated: when `to_socket_addrs` succeeds but
yields no address for an admitted hostname, resolution has failed to
produce a socket address, yet processing panics on `next().unwrap()`
instead of failing with the ResolutionFailed error. -/
theorem C9_counterexample :
    routeHost envEmptyRes "app.holohost.net" =
      (.panic, [Event.resolveEv "app.holohost.net:443"]) := by
  decide

/-- C9 (amended): an admitted hostname is resolved as "{host}:443" with
the fixed port 443; when the resolver returns an error the attempt fails
with "Failed to resolve {host}" — an error distinct from the policy
rejection — with no outbound connect event; when the resolver yields at
least one address, that first address is the connect destination.  (If the
resolver succeeds with an empty address list, the code panics instead.) -/
theorem C9_resolution (env : Env) (host : String)
    (hs : ends_with host "holohost.net" = true) :
    (env.resolve (host ++ ":443") = none →
        routeHost env host =
          (.err ("Failed to resolve " ++ host),
           [Event.resolveEv (host ++ ":443")]) ∧
        "Failed to resolve " ++ host ≠ "Rejected " ++ host)
  ∧ (∀ addr tl, env.resolve (host ++ ":443") = some (addr :: tl) →
        Event.connectEv addr ∈ (routeHost env host).2) := by
  constructor
  · intro hr
    constructor
    · unfold routeHost
      rw [hs]
      simp [hr]
    · intro heq
      have hlen := congrArg String.length heq
      simp only [String.length_append] at hlen
      have h1 : "Failed to resolve ".length = 18 := rfl
      have h2 : "Rejected ".length = 9 := rfl
      omega
  · intro addr tl hr
    unfold routeHost
    rw [hs]
    rcases hc : env.connectResult addr with e | u
    · simp [hr, hc]
    · rcases hsp : env.spliceResult with e | u2
      · simp [hr, hc, hsp]
      · simp [hr, hc, hsp]

/-- Witness for the amended C9: resolver failure on an admitted hostname
yields the resolution error and no connect event. -/
theorem C9_witness :
    routeHost envNoneRes "app.holohost.net" =
      (.err ("Failed to resolve " ++ "app.holohost.net"),
       [Event.resolveEv ("app.holohost.net" ++ ":443")]) :=
  ((C9_resolution envNoneRes "app.holohost.net" (by decide)).1 rfl).1

/-- C10: the relay delivers each side's bytes unmodified to the other side
until end of stream, completes successfully exactly when both directions
end cleanly, and fails as a whole as soon as either direction fails (the
try-join completes with that error, stopping the other direction). -/
theorem C10_splice_relay (i o : Stream) :
    (splice i o).2 = (i.bytes, o.bytes)
  ∧ ((splice i o).1 = .ok () ↔ i.fail = none ∧ o.fail = none)
  ∧ (∀ e, i.fail = some e → (splice i o).1 = .error e)
  ∧ (∀ e, o.fail = some e → ∃ e2, (splice i o).1 = .error e2) := by
  rcases i with ⟨ib, ifail⟩
  rcases o with ⟨ob, ofail⟩
  rcases ifail with _ | e1 <;> rcases ofail with _ | e2 <;>
    simp [splice, copy, tryJoin]

/-- Witness for C10: a clean bidirectional copy and a relay failing
because the server-to-client direction fails. -/
theorem C10_witness :
    (splice ⟨[7, 8], none⟩ ⟨[9], none⟩).2 = ([7, 8], [9]) ∧
    (splice ⟨[7], some "reset"⟩ ⟨[9], none⟩).1 = .error "reset" :=
  ⟨(C10_splice_relay ⟨[7, 8], none⟩ ⟨[9], none⟩).1,
   (C10_splice_relay ⟨[7], some "reset"⟩ ⟨[9], none⟩).2.2.1 "reset" rfl⟩

end HoloRouter
